import Mathlib

/-!
Verification development for the Covalent web-app dashboard components
(`src/covalent_ui/webapp/src/components/qelectron/Circuit.js`): a shallow
embedding of the modal state of the `Circuit` component, the rendering of
the four overview metrics by `DashboardCard`, its two `useEffect` hooks
(statistics refresh and error snackbar), and the auto-hide timing of the
snackbar.
-/

namespace Covalent

/-- Embedding of the JavaScript values that flow into `DashBoardCardItems`
as the `content` prop: `undefined`, a number, or a string. -/
inductive JSVal where
  | undef : JSVal
  | num : Int → JSVal
  | str : String → JSVal
deriving DecidableEq

/-- JavaScript truthiness for the embedded values: `undefined` is falsy,
a number is truthy iff nonzero, a string is truthy iff nonempty. -/
def JSVal.truthy : JSVal → Bool
  | .undef => false
  | .num n => n ≠ 0
  | .str s => s ≠ ""

/-- What React displays for a value placed in JSX text position:
numbers render via their decimal string, strings render as themselves,
`undefined` renders as nothing. -/
def JSVal.display : JSVal → String
  | .undef => ""
  | .num n => toString n
  | .str s => s

/-- Outcome of rendering one metric cell: either the loading `Skeleton`
placeholder or a text node. -/
inductive CellView where
  | skeleton : CellView
  | text : String → CellView
deriving DecidableEq

/-- Embedding of `DashBoardCardItems` (Circuit.js lines 331-368): the
rendered metric is the skeleton when `isSkeletonPresent`, else the content
when `content || content === 0`, else the literal string `N/A`. -/
def dashBoardCardItems (content : JSVal) (isSkeletonPresent : Bool) : CellView :=
  if isSkeletonPresent then
    CellView.skeleton
  else if content.truthy || content = JSVal.num 0 then
    CellView.text content.display
  else
    CellView.text "N/A"

/-- The `dashboardOverview` statistics object (spec section 3): each field
may be absent (`undefined`), which `Option` models. -/
structure DashboardStats where
  total_jobs_running : Option Int
  total_jobs_completed : Option Int
  latest_running_task_status : Option String
  total_dispatcher_duration : Option Int
deriving DecidableEq

/-- Reading a possibly absent field of a present object yields the field
value or `undefined`. -/
def jsOfOptInt : Option Int → JSVal
  | none => JSVal.undef
  | some n => JSVal.num n

/-- Modelled from the spec: `Formatter.secondsToHms` lives in
`utils/misc`, which is not among the provided sources; the spec only
states it is a pure, total formatting function from seconds to a display
string, so any concrete nonempty rendering is faithful. -/
def secondsToHms (seconds : Int) : String :=
  toString seconds ++ "s"

/-- Modelled from the spec: `Formatter.statusLabel` lives in
`utils/misc`, which is not among the provided sources; the spec states it
returns a display string or a defined unknown fallback, here the empty
string (which the `|| N/A` at the call site replaces). -/
def statusLabel : Option String → String
  | none => ""
  | some s => s

/-- Content of the first metric, `content={dashboardStats.total_jobs_running}`
(Circuit.js line 294). -/
def jobsRunningContent (s : DashboardStats) : JSVal :=
  jsOfOptInt s.total_jobs_running

/-- Content of the second metric, `content={dashboardStats.total_jobs_completed}`
(Circuit.js line 301). -/
def jobsCompletedContent (s : DashboardStats) : JSVal :=
  jsOfOptInt s.total_jobs_completed

/-- Content of the third metric,
`statusLabel(dashboardStats.latest_running_task_status) || N/A`
(Circuit.js line 309). -/
def latestStatusContent (s : DashboardStats) : JSVal :=
  let l := statusLabel s.latest_running_task_status
  if (JSVal.str l).truthy then JSVal.str l else JSVal.str "N/A"

/-- Content of the fourth metric,
`dashboardStats?.total_dispatcher_duration ? secondsToHms(...) : N/A`
(Circuit.js lines 317-321): a number is truthy iff nonzero, and an absent
field (or absent stats, via the optional chain) is falsy. -/
def dispatcherDurationContent (s : DashboardStats) : JSVal :=
  match s.total_dispatcher_duration with
  | some n => if n ≠ 0 then JSVal.str (secondsToHms n) else JSVal.str "N/A"
  | none => JSVal.str "N/A"

/-- The `isSkeletonPresent={!dashboardStats}` prop (Circuit.js lines
297, 304, 313, 324): a JS object is always truthy, so this is true iff
the whole stats value is `undefined`/`null`. -/
def isSkeletonPresent (stats : Option DashboardStats) : Bool :=
  stats.isNone

/-- Embedding of the `DashboardCard` body (Circuit.js lines 292-326):
the four `DashBoardCardItems` in source order. Line 294 reads
`dashboardStats.total_jobs_running` with no guard, so when the stats
value is `undefined` the render throws a `TypeError`, modelled as
`Except.error`. -/
def renderDashboardCard (stats : Option DashboardStats) :
    Except String (List CellView) :=
  match stats with
  | none =>
      Except.error "TypeError: Cannot read properties of undefined (reading total_jobs_running)"
  | some s =>
      let skel := isSkeletonPresent (some s)
      Except.ok
        [ dashBoardCardItems (jobsRunningContent s) skel,
          dashBoardCardItems (jobsCompletedContent s) skel,
          dashBoardCardItems (latestStatusContent s) skel,
          dashBoardCardItems (dispatcherDurationContent s) skel ]

/-- Modelled from the spec: the store slices feeding `DashboardCard`
(`state.common.callSocketApi`, `state.dashboard.dispatchesDeleted`,
`state.dashboard.fetchDashboardOverview.error`) are defined in redux
slice files not among the provided sources; the spec (sections 3, 4.2)
types the two trigger signals and the error flag as booleans. -/
structure DashStore where
  callSocketApi : Bool
  dispatchesDeleted : Bool
  isError : Bool
deriving DecidableEq

/-- The dependency array `[isDeleted, callSocketApi]` of the refresh
effect (Circuit.js line 252). -/
def deps1 (s : DashStore) : Bool × Bool :=
  (s.dispatchesDeleted, s.callSocketApi)

/-- Component state of `DashboardCard` across renders: the `openSnackbar`
`useState` (Circuit.js line 243), the dependency values the two effects
last ran against, and a count of `dispatch(fetchDashboardOverview())`
invocations (line 246). -/
structure CardState where
  openSnackbar : Bool
  prevDeps1 : Bool × Bool
  prevErr : Bool
  fetches : Nat
deriving DecidableEq

/-- Events `DashboardCard` reacts to: a store update (followed by a
re-render, which re-runs an effect exactly when its dependency array
changed), and a user dismissal of the snackbar (`setOpenSnackbar(false)`,
Circuit.js lines 277 and 287). -/
inductive CardEvent where
  | storeUpdate : DashStore → CardEvent
  | dismiss : CardEvent
deriving DecidableEq

/-- Mounting `DashboardCard` under store `s`: `useState(Boolean(isError))`
initializes `openSnackbar` (line 243); on the first render both effects
run unconditionally: the refresh effect dispatches one fetch (lines
249-252) and the snackbar effect sets `openSnackbar` when `isError` is
truthy (lines 254-257). -/
def cardMount (s : DashStore) : CardState :=
  let o0 := s.isError
  { openSnackbar := if s.isError then true else o0
    prevDeps1 := deps1 s
    prevErr := s.isError
    fetches := 1 }

/-- One step of `DashboardCard`. On a store update, React re-runs the
refresh effect iff `[isDeleted, callSocketApi]` changed (dispatching one
fetch) and re-runs the snackbar effect iff `isError` changed (setting
`openSnackbar` when the new value is truthy). A dismissal just performs
`setOpenSnackbar(false)`; the resulting re-render leaves every dependency
array unchanged, so no effect re-runs. -/
def cardStep (c : CardState) : CardEvent → CardState
  | CardEvent.storeUpdate s =>
      { openSnackbar :=
          if s.isError = c.prevErr then c.openSnackbar
          else if s.isError then true else c.openSnackbar
        prevDeps1 := deps1 s
        prevErr := s.isError
        fetches := if deps1 s = c.prevDeps1 then c.fetches else c.fetches + 1 }
  | CardEvent.dismiss => { c with openSnackbar := false }

/-- Running `DashboardCard` from a mounted state over a sequence of
events. -/
def cardRun (c : CardState) (evs : List CardEvent) : CardState :=
  evs.foldl cardStep c

/-- Count of the value-changing transitions of either trigger signal
along an event sequence, starting from the trigger values `d` seen at
mount: a store update counts iff it changes `(dispatchesDeleted,
callSocketApi)`; dismissals and error-only updates never count. -/
def countTriggerTransitions : Bool × Bool → List CardEvent → Nat
  | _, [] => 0
  | d, CardEvent.dismiss :: evs => countTriggerTransitions d evs
  | d, CardEvent.storeUpdate s :: evs =>
      (if deps1 s = d then 0 else 1) + countTriggerTransitions (deps1 s) evs

/-- An event sequence in which the error flag is never truthy. -/
def noErrorEvents : List CardEvent → Bool
  | [] => true
  | CardEvent.dismiss :: evs => noErrorEvents evs
  | CardEvent.storeUpdate s :: evs => !s.isError && noErrorEvents evs

/-- An event sequence with no falsy-to-truthy transition of the error
flag, given that the flag was last seen with value `p`. -/
def noRisingEdge : Bool → List CardEvent → Bool
  | _, [] => true
  | p, CardEvent.dismiss :: evs => noRisingEdge p evs
  | p, CardEvent.storeUpdate s :: evs =>
      !(s.isError && !p) && noRisingEdge s.isError evs

/-- Modelled from the spec: the auto-hide of the MUI `Snackbar` is
library behaviour, not in the provided sources; the spec (sections 4.2,
5) describes it as a single cancellable timer armed on entering
`Visible`. The duration 3000 and both hide handlers are in the source
(`autoHideDuration={3000}` line 275, `setOpenSnackbar(false)` lines 277
and 287). The timer field is the remaining milliseconds of the pending
auto-hide. -/
structure SnackTimer where
  visible : Bool
  timer : Option Nat
deriving DecidableEq

/-- Entering `Visible`: the snackbar opens and the 3000 ms auto-hide
timer is armed. -/
def snackShow : SnackTimer :=
  { visible := true, timer := some 3000 }

/-- Passage of `d` milliseconds: a pending timer either counts down or,
once 3000 ms have elapsed since entering `Visible`, fires `onClose`
(`setOpenSnackbar(false)`). -/
def snackElapse (d : Nat) (st : SnackTimer) : SnackTimer :=
  match st.timer with
  | none => st
  | some r => if d < r then { st with timer := some (r - d) } else { visible := false, timer := none }

/-- Explicit user dismissal: `setOpenSnackbar(false)` hides the snackbar
and cancels the pending auto-hide. -/
def snackDismiss (st : SnackTimer) : SnackTimer :=
  { visible := false, timer := none }

/-- State of the `Circuit` component (Circuit.js line 77):
`useState(false)` for the circuit-preview modal. -/
structure CircuitState where
  openModal : Bool
deriving DecidableEq

/-- Events the `Circuit` component handles that touch `openModal`:
`handleClose` (Circuit.js lines 79-81), wired to both the `onClose` of
the modal (line 130) and the `onClick` of the close icon (line 175). No
handler in the component calls `setOpenModal(true)`. -/
inductive CircuitEvent where
  | handleClose : CircuitEvent
deriving DecidableEq

/-- Initial `Circuit` state: `useState(false)` (Circuit.js line 77). -/
def circuitInit : CircuitState :=
  { openModal := false }

/-- Transition of the `Circuit` component state: `handleClose` performs
`setOpenModal(false)` (Circuit.js line 80). -/
def circuitStep (c : CircuitState) : CircuitEvent → CircuitState
  | CircuitEvent.handleClose => { c with openModal := false }

/-- Running the `Circuit` component over a sequence of handled events. -/
def circuitRun (evs : List CircuitEvent) : CircuitState :=
  evs.foldl circuitStep circuitInit

/-- Unfolding of the card body on a present stats object: the four cells
in source order, each with `isSkeletonPresent = !dashboardStats`. -/
theorem renderDashboardCard_some (s : DashboardStats) :
    renderDashboardCard (some s)
      = Except.ok
          [ dashBoardCardItems (jobsRunningContent s) (isSkeletonPresent (some s)),
            dashBoardCardItems (jobsCompletedContent s) (isSkeletonPresent (some s)),
            dashBoardCardItems (latestStatusContent s) (isSkeletonPresent (some s)),
            dashBoardCardItems (dispatcherDurationContent s) (isSkeletonPresent (some s)) ] :=
  rfl

/-- Accumulator form of the fetch count: running from any component state
adds one fetch per value-changing trigger transition. -/
theorem cardRun_fetches (evs : List CardEvent) :
    ∀ c : CardState,
      (cardRun c evs).fetches = c.fetches + countTriggerTransitions c.prevDeps1 evs := by
  induction evs with
  | nil =>
      intro c
      simp [cardRun, countTriggerTransitions]
  | cons e evs ih =>
      intro c
      cases e with
      | dismiss =>
          have h := ih (cardStep c CardEvent.dismiss)
          simpa [cardRun, cardStep, countTriggerTransitions] using h
      | storeUpdate s =>
          have h := ih (cardStep c (CardEvent.storeUpdate s))
          simp only [cardRun, List.foldl] at h ⊢
          rw [h]
          by_cases hd : deps1 s = c.prevDeps1 <;>
            simp [cardStep, countTriggerTransitions, hd] <;> omega

/-- Runs that start hidden and contain no falsy-to-truthy transition of
the error flag stay hidden. -/
theorem cardRun_open_false (evs : List CardEvent) :
    ∀ c : CardState, c.openSnackbar = false → noRisingEdge c.prevErr evs = true →
      (cardRun c evs).openSnackbar = false := by
  induction evs with
  | nil =>
      intro c h _
      exact h
  | cons e evs ih =>
      intro c hopen hnr
      cases e with
      | dismiss =>
          exact ih (cardStep c CardEvent.dismiss) rfl hnr
      | storeUpdate s =>
          rw [noRisingEdge, Bool.and_eq_true] at hnr
          refine ih (cardStep c (CardEvent.storeUpdate s)) ?_ hnr.2
          have h1 := hnr.1
          cases hE : s.isError <;> cases hP : c.prevErr <;>
            simp_all [cardStep]

/-- An all-falsy error trace has no rising edge from any starting value. -/
theorem noErrorEvents_noRisingEdge (evs : List CardEvent) :
    ∀ p : Bool, noErrorEvents evs = true → noRisingEdge p evs = true := by
  induction evs with
  | nil =>
      intro p _
      rfl
  | cons e evs ih =>
      intro p hne
      cases e with
      | dismiss =>
          exact ih p hne
      | storeUpdate s =>
          rw [noErrorEvents, Bool.and_eq_true] at hne
          rw [noRisingEdge, Bool.and_eq_true]
          refine ⟨?_, ih s.isError hne.2⟩
          have h1 := hne.1
          cases hE : s.isError <;> simp_all

/-- Claim C1: over every event sequence, the number of statistics-fetch
dispatches issued by `DashboardCard` equals 1 (the unconditional fetch of
the mount effect) plus the number of value-changing transitions of the
`callSocketApi`/`dispatchesDeleted` trigger pair; store updates that
change neither trigger, and snackbar dismissals, dispatch no fetch. -/
theorem c1_fetch_count (s0 : DashStore) (evs : List CardEvent) :
    (cardRun (cardMount s0) evs).fetches = 1 + countTriggerTransitions (deps1 s0) evs := by
  have h := cardRun_fetches evs (cardMount s0)
  exact h

/-- Claim C3 (divergence witness): rendering `DashboardCard` with the
stats value still `undefined` throws a `TypeError` at the unguarded read
`dashboardStats.total_jobs_running` (Circuit.js line 294), instead of
degrading to the placeholder. -/
theorem c3_undefined_stats_throws :
    renderDashboardCard none
      = Except.error "TypeError: Cannot read properties of undefined (reading total_jobs_running)" :=
  rfl

/-- Claim C4: the notification invariant. First, if the error flag is
falsy at mount and stays falsy, the snackbar is never open. Second, after
a dismissal the snackbar stays closed across any further events that
contain no fresh falsy-to-truthy transition of the error flag. -/
theorem c4_notification_invariant (s0 : DashStore) (evs1 evs2 : List CardEvent) :
    (s0.isError = false → noErrorEvents evs1 = true →
      (cardRun (cardMount s0) evs1).openSnackbar = false)
    ∧ (noRisingEdge (cardRun (cardMount s0) evs1).prevErr evs2 = true →
      (cardRun (cardStep (cardRun (cardMount s0) evs1) CardEvent.dismiss) evs2).openSnackbar
        = false) := by
  constructor
  · intro h0 hne
    refine cardRun_open_false evs1 (cardMount s0) ?_ ?_
    · simp [cardMount, h0]
    · exact noErrorEvents_noRisingEdge evs1 _ hne
  · intro hnr
    exact cardRun_open_false evs2 _ rfl hnr

/-- Claim C4 witness: a concrete run in which the error flag never turns
truthy keeps the snackbar closed, and after dismissing it a repeated
truthy error value does not reopen it. -/
theorem c4_witness :
    ((cardRun (cardMount ⟨false, false, false⟩)
        [CardEvent.storeUpdate ⟨true, false, false⟩]).openSnackbar = false)
    ∧ ((cardRun (cardStep (cardRun (cardMount ⟨false, false, true⟩) [])
          CardEvent.dismiss) [CardEvent.storeUpdate ⟨false, false, true⟩]).openSnackbar
        = false) :=
  ⟨(c4_notification_invariant ⟨false, false, false⟩
      [CardEvent.storeUpdate ⟨true, false, false⟩] []).1 rfl (by decide),
   (c4_notification_invariant ⟨false, false, true⟩ []
      [CardEvent.storeUpdate ⟨false, false, true⟩]).2 (by decide)⟩

/-- Claim C5: the snackbar opening is edge-triggered. A store update with
a falsy error flag never changes visibility; an update carrying a
falsy-to-truthy transition makes the snackbar visible; an update whose
error flag is truthy but was already truthy at the last render leaves
visibility unchanged (so a dismissed snackbar does not reopen). -/
theorem c5_edge_triggered (c : CardState) (s : DashStore) :
    (s.isError = false →
      (cardStep c (CardEvent.storeUpdate s)).openSnackbar = c.openSnackbar)
    ∧ (s.isError = true → c.prevErr = false →
      (cardStep c (CardEvent.storeUpdate s)).openSnackbar = true)
    ∧ (s.isError = true → c.prevErr = true →
      (cardStep c (CardEvent.storeUpdate s)).openSnackbar = c.openSnackbar) := by
  refine ⟨?_, ?_, ?_⟩
  · intro h
    cases hP : c.prevErr <;> simp [cardStep, h, hP]
  · intro h hp
    simp [cardStep, h, hp]
  · intro h hp
    simp [cardStep, h, hp]

/-- Claim C5 witness: at a concrete falsy-to-truthy edge the snackbar
becomes visible. -/
theorem c5_witness :
    (cardStep ⟨false, (false, false), false, 1⟩
      (CardEvent.storeUpdate ⟨false, false, true⟩)).openSnackbar = true :=
  (c5_edge_triggered ⟨false, (false, false), false, 1⟩ ⟨false, false, true⟩).2.1 rfl rfl

/-- Claim C6: from `Visible`, the snackbar hides on whichever of the two
comes first: an elapse of 3000 ms with no dismissal auto-hides it, while
a dismissal at 1000 ms (before the timeout) hides it immediately and
cancels the pending auto-hide timer, so later time passage changes
nothing. -/
theorem c6_autohide_and_dismissal (d e : Nat) :
    (3000 ≤ d → (snackElapse d snackShow).visible = false)
    ∧ ((snackDismiss (snackElapse 1000 snackShow)).visible = false
        ∧ (snackDismiss (snackElapse 1000 snackShow)).timer = none)
    ∧ (d < 3000 →
        (snackElapse d snackShow).visible = true
        ∧ (snackElapse e (snackDismiss (snackElapse d snackShow))).visible = false) := by
  refine ⟨?_, ⟨rfl, rfl⟩, ?_⟩
  · intro h
    have hd : ¬ d < 3000 := by omega
    simp [snackShow, snackElapse, hd]
  · intro h
    refine ⟨?_, ?_⟩
    · simp [snackShow, snackElapse, h]
    · simp [snackShow, snackElapse, snackDismiss, h]

/-- Claim C6 witness: elapsing the full 3000 ms auto-hides, a dismissal
at 1000 ms hides immediately, and 5000 further ms after that dismissal
leave the snackbar hidden. -/
theorem c6_witness :
    ((snackElapse 3000 snackShow).visible = false)
    ∧ ((snackElapse 1000 snackShow).visible = true
        ∧ (snackElapse 5000 (snackDismiss (snackElapse 1000 snackShow))).visible = false) :=
  ⟨(c6_autohide_and_dismissal 3000 5000).1 (by decide),
   (c6_autohide_and_dismissal 1000 5000).2.2 (by decide)⟩

/-- Claim C7: a present stats object with `total_jobs_running = 0`
renders the string `0` for the first metric, not `N/A`: the
`content || content === 0` check admits numeric zero. -/
theorem c7_zero_renders_zero (s : DashboardStats)
    (h : s.total_jobs_running = some 0) :
    ∃ c2 c3 c4, renderDashboardCard (some s)
      = Except.ok [CellView.text "0", c2, c3, c4] := by
  have h0 : jobsRunningContent s = JSVal.num 0 := by
    unfold jobsRunningContent
    rw [h]
    rfl
  have h1 : dashBoardCardItems (jobsRunningContent s) (isSkeletonPresent (some s))
      = CellView.text "0" := by
    rw [h0]
    rfl
  exact ⟨_, _, _, by rw [renderDashboardCard_some, h1]⟩

/-- Claim C7 witness: the concrete stats object whose only present field
is `total_jobs_running = 0`. -/
theorem c7_witness :
    ∃ c2 c3 c4, renderDashboardCard (some ⟨some 0, none, none, none⟩)
      = Except.ok [CellView.text "0", c2, c3, c4] :=
  c7_zero_renders_zero ⟨some 0, none, none, none⟩ rfl

/-- Claim C8: a present stats object with `total_dispatcher_duration = 0`
renders `N/A` for the duration metric: the `?:` truthiness check treats
numeric zero as absent there, so `secondsToHms` is not applied. -/
theorem c8_zero_duration_na (s : DashboardStats)
    (h : s.total_dispatcher_duration = some 0) :
    ∃ c1 c2 c3, renderDashboardCard (some s)
      = Except.ok [c1, c2, c3, CellView.text "N/A"] := by
  have h0 : dispatcherDurationContent s = JSVal.str "N/A" := by
    unfold dispatcherDurationContent
    rw [h]
    rfl
  have h1 : dashBoardCardItems (dispatcherDurationContent s) (isSkeletonPresent (some s))
      = CellView.text "N/A" := by
    rw [h0]
    rfl
  exact ⟨_, _, _, by rw [renderDashboardCard_some, h1]⟩

/-- Claim C8 witness: the concrete stats object whose only present field
is `total_dispatcher_duration = 0`. -/
theorem c8_witness :
    ∃ c1 c2 c3, renderDashboardCard (some ⟨none, none, none, some 0⟩)
      = Except.ok [c1, c2, c3, CellView.text "N/A"] :=
  c8_zero_duration_na ⟨none, none, none, some 0⟩ rfl

/-- Claim C9: at mount, the snackbar is visible iff the error flag is
truthy at construction time: `useState(Boolean(isError))` seeds it and
the mount run of the error effect preserves it. -/
theorem c9_initial_visibility (s : DashStore) :
    (cardMount s).openSnackbar = s.isError := by
  cases h : s.isError <;> simp [cardMount, h]

/-- Claim C10: the circuit-preview modal is never open: its state is
initialized to `false` and the only handler that writes it,
`handleClose`, writes `false`. -/
theorem c10_modal_never_open (evs : List CircuitEvent) :
    (circuitRun evs).openModal = false := by
  have key : ∀ (l : List CircuitEvent) (c : CircuitState), c.openModal = false →
      (l.foldl circuitStep c).openModal = false := by
    intro l
    induction l with
    | nil =>
        intro c h
        exact h
    | cons e l ih =>
        intro c h
        cases e
        exact ih (circuitStep c CircuitEvent.handleClose) rfl
  exact key evs circuitInit rfl

/-- Claim C2 counterexample: a present stats object whose
`total_jobs_running` is `undefined` renders the literal `N/A` for the
first metric, which is neither the skeleton placeholder nor `0`: the
skeleton condition `!dashboardStats` looks only at the whole stats
value. -/
theorem c2_counterexample :
    (⟨none, none, none, none⟩ : DashboardStats).total_jobs_running = none
    ∧ renderDashboardCard (some ⟨none, none, none, none⟩)
        = Except.ok [CellView.text "N/A", CellView.text "N/A",
            CellView.text "N/A", CellView.text "N/A"]
    ∧ CellView.text "N/A" ≠ CellView.skeleton
    ∧ CellView.text "N/A" ≠ CellView.text "0" :=
  ⟨rfl, rfl, by decide, by decide⟩

/-- Claim C2 as amended: a present stats object whose
`total_jobs_running` field is `undefined` renders `N/A` for that metric
(not the skeleton and not `0`); the skeleton appears only when the whole
stats value is absent. -/
theorem c2_absent_field_renders_na (s : DashboardStats)
    (h : s.total_jobs_running = none) :
    ∃ c2 c3 c4, renderDashboardCard (some s)
      = Except.ok [CellView.text "N/A", c2, c3, c4] := by
  have h0 : jobsRunningContent s = JSVal.undef := by
    unfold jobsRunningContent
    rw [h]
    rfl
  have h1 : dashBoardCardItems (jobsRunningContent s) (isSkeletonPresent (some s))
      = CellView.text "N/A" := by
    rw [h0]
    rfl
  exact ⟨_, _, _, by rw [renderDashboardCard_some, h1]⟩

/-- Claim C2 amended witness: the all-absent stats object. -/
theorem c2_witness :
    ∃ c2 c3 c4, renderDashboardCard (some ⟨none, none, none, none⟩)
      = Except.ok [CellView.text "N/A", c2, c3, c4] :=
  c2_absent_field_renders_na ⟨none, none, none, none⟩ rfl

end Covalent
